import Mathlib

/-!
Verification of the Keycloak provisioning scripts
(`scripts/fix-keycloak-client.py` and `scripts/setup-keycloak-multitenant.py`)
against their specification.  The Python code is shallowly embedded:
dictionaries become association lists, HTTP responses become an explicit
result type, exceptions become `Except`, and the module-level control flow
around each claim becomes an explicit outcome value.
-/

/-- A JSON value, as handled by Python's `json` module.  Numbers are modelled
as integers (the scripts only ever serialize integers and strings). -/
inductive JVal where
  | null
  | bool (b : Bool)
  | num (n : Int)
  | str (s : String)
  | arr (xs : List JVal)
  | obj (kvs : List (String × JVal))

/-- Python truthiness of a JSON-able value: `None`, `False`, `0`, `""`,
`[]` and `{}` are falsy, everything else is truthy (semantics of
`if data:` in the `api` helper). -/
def pyTruthy : JVal → Bool
  | .null => false
  | .bool b => b
  | .num n => n != 0
  | .str s => s != ""
  | .arr [] => false
  | .arr (_ :: _) => true
  | .obj [] => false
  | .obj (_ :: _) => true

mutual

/-- `json.dumps`: serialize a `JVal` to its JSON text (Python's default
separators `", "` and `": "`). -/
def dumps : JVal → String
  | .null => "null"
  | .bool true => "true"
  | .bool false => "false"
  | .num n => toString n
  | .str s => "\"" ++ s ++ "\""
  | .arr xs => "[" ++ dumpsList xs ++ "]"
  | .obj kvs => "\x7b" ++ dumpsObj kvs ++ "\x7d"

/-- Serialize the elements of a JSON array, comma separated. -/
def dumpsList : List JVal → String
  | [] => ""
  | [x] => dumps x
  | x :: y :: rest => dumps x ++ ", " ++ dumpsList (y :: rest)

/-- Serialize the members of a JSON object, comma separated. -/
def dumpsObj : List (String × JVal) → String
  | [] => ""
  | [(k, v)] => "\"" ++ k ++ "\": " ++ dumps v
  | (k, v) :: p :: rest => "\"" ++ k ++ "\": " ++ dumps v ++ ", " ++ dumpsObj (p :: rest)

end

/-- The outcome of `urllib.request.urlopen` on an admin-API request: either a
successful response (status, body text) or an `HTTPError` carrying an error
status and its body text. -/
inductive HttpResult where
  | success (status : Nat) (body : String)
  | httpError (code : Nat) (body : String)
deriving DecidableEq

/-- The second component of the pair returned by the `api` helper: a decoded
JSON body, the raw text of an error body, or `None`. -/
inductive ApiBody where
  | json (j : JVal)
  | raw (s : String)
  | none

/-- The `api` helper's handling of the HTTP response
(`scripts/setup-keycloak-multitenant.py` lines 23-35, identical in
`scripts/fix-keycloak-client.py` lines 15-26): an `HTTPError` is caught and
`(e.code, e.read().decode())` is returned; a success returns
`(resp.status, json.loads(content) if content else None)`.  `parse` models
`json.loads`; a success body that is non-empty but unparseable raises
`json.JSONDecodeError`, modelled as `Except.error`. -/
def apiResp (parse : String → Option JVal) : HttpResult → Except String (Nat × ApiBody)
  | .httpError code body => .ok (code, .raw body)
  | .success status body =>
      if body = "" then .ok (status, .none)
      else
        match parse body with
        | some j => .ok (status, .json j)
        | Option.none => .error "json.JSONDecodeError"

/-- The request side of the `api` helper: the body is
`json.dumps(data).encode() if data else None` and the headers start from
`Content-Type: application/json`, with `Authorization: Bearer <token>`
added when `token` is truthy. -/
structure ApiRequest where
  body : Option String
  headers : List (String × String)
deriving DecidableEq

/-- Build the request exactly as `api` does
(`scripts/setup-keycloak-multitenant.py` lines 23-28). -/
def apiRequest (data : Option JVal) (token : Option String) : ApiRequest :=
  { body :=
      match data with
      | some d => if pyTruthy d then some (dumps d) else none
      | none => none
    headers :=
      ("Content-Type", "application/json") ::
        (match token with
         | some t => if t != "" then [("Authorization", "Bearer " ++ t)] else []
         | none => []) }

/-! ## Token-segment padding (both scripts)

`payload += '=' * (4 - len(payload) % 4)` — the number of `'='` characters
appended is always `4 - len % 4`, which is 4 (not 0) when the length is
already a multiple of 4. -/

/-- Number of `'='` characters the scripts append to the claim segment:
`4 - len(payload) % 4`. -/
def padCount (n : Nat) : Nat := 4 - n % 4

/-- The padded segment, as a character list. -/
def paddedSegment (s : List Char) : List Char :=
  s ++ List.replicate (padCount s.length) '='

/-! ## Idempotent role/user provisioning steps (setup script, lines 62-97) -/

/-- `ok(code)` helper of the setup script: `code in (200, 201, 204)`. -/
def ok (code : Nat) : Bool := code == 200 || code == 201 || code == 204

/-- What one provisioning-loop iteration does with the status code: the
`already exists` / `not found (skip)` informational branch, or the
status-icon report line.  No constructor models an exception or an abort,
because the loop bodies contain neither `raise` nor `sys.exit`. -/
inductive StepOutcome where
  | alreadyExists
  | notFoundSkip
  | statusReport (succeeded : Bool)
deriving DecidableEq

/-- Body of the new-role creation loop (setup script lines 62-68): call
`api`, then branch on `code == 409`. -/
def roleCreateStep (parse : String → Option JVal) (resp : HttpResult) :
    Except String StepOutcome :=
  match apiResp parse resp with
  | .error e => .error e
  | .ok (code, _) => .ok (if code == 409 then .alreadyExists else .statusReport (ok code))

/-- Body of the old-role deletion loop (setup script lines 74-79): call
`api`, then branch on `code == 404`. -/
def roleDeleteStep (parse : String → Option JVal) (resp : HttpResult) :
    Except String StepOutcome :=
  match apiResp parse resp with
  | .error e => .error e
  | .ok (code, _) => .ok (if code == 404 then .notFoundSkip else .statusReport (ok code))

/-- User creation handling (setup script lines 93-97 and 121-125): same
`409` branch as role creation. -/
def userCreateStep (parse : String → Option JVal) (resp : HttpResult) :
    Except String StepOutcome :=
  match apiResp parse resp with
  | .error e => .error e
  | .ok (code, _) => .ok (if code == 409 then .alreadyExists else .statusReport (ok code))

def NEW_ROLES : List String := ["super_admin", "company_admin", "company_member"]

def OLD_ROLES : List String := ["owner_admin", "dispatcher", "technician", "accountant", "viewer"]

/-- Run a loop body over a list of role names; an `Except.error` anywhere
aborts the run (Python: an uncaught exception ends the script). -/
def runSteps (f : String → Except String StepOutcome) : List String → Except String (List StepOutcome)
  | [] => .ok []
  | r :: rs =>
      match f r with
      | .error e => .error e
      | .ok o => (runSteps f rs).map (o :: ·)

/-! ## Client lookup (fix script lines 40-44, setup script lines 146-147) -/

/-- How a script run can stop before its remaining steps: an explicit
`sys.exit` after a printed diagnostic, or an uncaught Python exception
(CPython then prints a traceback and exits with status 1). -/
inductive RunAbort where
  | exited (status : Nat) (msg : String)
  | uncaught (exn : String)
deriving DecidableEq

/-- The process exit status an abort produces: `sys.exit(n)` exits with
`n`; an uncaught exception exits with 1. -/
def abortExitStatus : RunAbort → Nat
  | .exited s _ => s
  | .uncaught _ => 1

/-- Client lookup of the fix script (lines 40-44): `if not clients:` prints
a diagnostic and calls `sys.exit(1)`; otherwise `clients[0]` is used. -/
def fixClientLookup (clients : List JVal) : Except RunAbort JVal :=
  match clients with
  | [] => .error (.exited 1 "Client not found")
  | c :: _ => .ok c

/-- Client lookup of the setup script (lines 146-147): `clients[0]['id']`
with no emptiness guard; on an empty list Python raises `IndexError`,
which nothing catches. -/
def setupClientLookup (clients : List JVal) : Except RunAbort JVal :=
  match clients with
  | [] => .error (.uncaught "IndexError: list index out of range")
  | c :: _ => .ok c

/-! ## Attribute merge-update (setup script lines 137-141 and 218-222) -/

/-- Python dict lookup on an association list (first match; keys are
unique in a dict). -/
def lookupKV {α : Type} : List (String × α) → String → Option α
  | [], _ => none
  | (k, v) :: rest, key => if k = key then some v else lookupKV rest key

/-- Python dict item assignment `d[key] = v`: overwrite in place if the key
exists, else append the new entry. -/
def setKV {α : Type} : List (String × α) → String → α → List (String × α)
  | [], key, v => [(key, v)]
  | (k, w) :: rest, key, v =>
      if k = key then (key, v) :: rest else (k, w) :: setKV rest key v

/-- A user representation as fetched from the provider: its `attributes`
mapping (absent when the provider returned none) and every other field,
which the update never touches. -/
structure UserRep where
  attributes : Option (List (String × List String))
  rest : List (String × JVal)

/-- The attribute update of the setup script (lines 137-140, identically
218-221): `user_data['attributes'] = user_data.get('attributes', {})`
followed by `user_data['attributes']['company_id'] = ['1']`. -/
def setCompanyId (u : UserRep) : UserRep :=
  { attributes := some (setKV (u.attributes.getD []) "company_id" ["1"])
    rest := u.rest }

/-! ## Decoded token claims and role checks
(fix script lines 86-97, setup script lines 239-250) -/

/-- The decoded claim fields the verification phase reads.
`realmAccessRoles` is `decoded['realm_access']['roles']` when both the
`realm_access` object and its `roles` key are present (absence of either
behaves identically in both scripts: the roles default to `[]`/nothing);
`realmRoles` is the top-level legacy `realm_roles` claim;
`companyId` is the top-level `company_id` claim. -/
structure DecodedToken where
  realmAccessRoles : Option (List String)
  realmRoles : Option (List String)
  companyId : Option String

/-- Role check of the fix script (lines 91-97): start from an empty set,
add `realm_access['roles']` when the key is present, add `realm_roles`
when that claim is truthy (non-empty), then test membership. -/
def fixAllRoles (d : DecodedToken) : List String :=
  (d.realmAccessRoles.getD []) ++ (d.realmRoles.getD [])

/-- `'owner_admin' in all_roles` of the fix script, for an arbitrary
expected role name. -/
def fixRoleCheck (d : DecodedToken) (role : String) : Bool :=
  (fixAllRoles d).contains role

/-- Role check of the setup script (lines 239-250):
`roles = decoded.get('realm_access', {}).get('roles', [])` and then
`'company_admin' in roles` — the legacy `realm_roles` claim is not
consulted. -/
def setupRoleCheck (d : DecodedToken) (role : String) : Bool :=
  (d.realmAccessRoles.getD []).contains role

/-- Membership in the union of the two role sources, as the specification
describes the check. -/
def unionRoleCheck (d : DecodedToken) (role : String) : Bool :=
  (d.realmAccessRoles.getD []).contains role || (d.realmRoles.getD []).contains role

/-! ## Verification-phase exception handling
(setup script lines 233-252 and 257-272; fix script lines 79-101) -/

/-- The outcome of one principal's token verification. -/
inductive VerifyOutcome where
  | checked (roleFound : Bool)
  | reportedFailure (msg : String)
deriving DecidableEq

/-- One verification block of the setup script (lines 233-252): the whole
password-grant + decode + check sequence sits inside
`try: ... except Exception as e: print('Token test failed: ...')`, so an
exception in the attempt is caught and reported and the block returns
normally. -/
def setupVerify (attempt : Except String DecodedToken) (role : String) :
    Except RunAbort VerifyOutcome :=
  match attempt with
  | .ok d => .ok (.checked (setupRoleCheck d role))
  | .error e => .ok (.reportedFailure ("Token test failed: " ++ e))

/-- The verification phase of the setup script runs two such blocks
(admin@crm.local, then superadmin) in sequence; each is independent. -/
def setupVerifyPhase (a1 a2 : Except String DecodedToken) :
    Except RunAbort (VerifyOutcome × VerifyOutcome) :=
  match setupVerify a1 "company_admin", setupVerify a2 "super_admin" with
  | .ok o1, .ok o2 => .ok (o1, o2)
  | .error a, _ => .error a
  | _, .error a => .error a

/-- The verification step of the fix script (lines 79-101): the
password-grant request, the decode and the role check run at module level
with no `try`/`except`, so an exception propagates and aborts the run. -/
def fixVerify (attempt : Except String DecodedToken) (role : String) :
    Except RunAbort VerifyOutcome :=
  match attempt with
  | .ok d => .ok (.checked (fixRoleCheck d role))
  | .error e => .error (.uncaught e)

/-! ## Lookup guard and unguarded indexing of the fix script
(lines 40-44 and 58-62) -/

/-- What the `api` call for a lookup can hand to the guard: `None` (empty
success body), a decoded JSON list (successful lookup), or the raw body
text of an error response. -/
inductive LookupValue where
  | pyNone
  | pyList (xs : List JVal)
  | pyStr (s : String)

/-- Python truthiness of the guarded value — `if not clients:` takes the
exit path exactly on falsy values. -/
def lookupFalsy : LookupValue → Bool
  | .pyNone => true
  | .pyList xs => xs.isEmpty
  | .pyStr s => s == ""

/-- What evaluating the fix script's guard plus `clients[0]['id']` does. -/
inductive GuardOutcome where
  | exitPath
  | gotFirst (x : JVal)
  | typeError

/-- Fix-script lookup handling (lines 40-44): `if not clients:` exits;
otherwise `clients[0]` is taken and subscripted with the string key
`'id'` — on a list, that yields the first element's item; on a non-empty
string, `clients[0]` is a one-character string and subscripting it with a
string key raises `TypeError`. -/
def fixLookupGuard : LookupValue → GuardOutcome
  | .pyNone => .exitPath
  | .pyList [] => .exitPath
  | .pyList (x :: _) => .gotFirst x
  | .pyStr s => if s == "" then .exitPath else .typeError

/-! ## base64 decoding as `base64.b64decode` performs it (both scripts)

`base64.b64decode(payload)` (default `validate=False`) is CPython's legacy
`binascii.a2b_base64`: characters outside the standard alphabet and `'='`
are silently skipped; data characters are consumed in quanta of four
6-bit values through a quad-position automaton; a `'='` counts as padding
only at quad position 2 or 3 and finishes the decode once the quantum is
completed; a quantum left open at the end of input raises
`binascii.Error` (modelled as `none`). -/

/-- 6-bit value of a character in the standard base64 alphabet
(`A`-`Z`, `a`-`z`, `0`-`9`, `+`, `/`); `none` for everything else. -/
def stdVal (c : Char) : Option Nat :=
  if 'A' ≤ c ∧ c ≤ 'Z' then some (c.toNat - 65)
  else if 'a' ≤ c ∧ c ≤ 'z' then some (c.toNat - 97 + 26)
  else if '0' ≤ c ∧ c ≤ '9' then some (c.toNat - 48 + 52)
  else if c = '+' then some 62
  else if c = '/' then some 63
  else none

/-- 6-bit value of a character in the base64url alphabet of JWT compact
serialization: as `stdVal` but with `-` for 62 and `_` for 63. -/
def urlVal (c : Char) : Option Nat :=
  if 'A' ≤ c ∧ c ≤ 'Z' then some (c.toNat - 65)
  else if 'a' ≤ c ∧ c ≤ 'z' then some (c.toNat - 97 + 26)
  else if '0' ≤ c ∧ c ≤ '9' then some (c.toNat - 48 + 52)
  else if c = '-' then some 62
  else if c = '_' then some 63
  else none

/-- State of the `a2b_base64` automaton: bytes emitted so far, the pending
`leftchar` bits, the quad position (0-3), and the running pad count. -/
structure B64State where
  out : List Nat
  left : Nat
  qpos : Nat
  pads : Nat

/-- CPython's legacy `binascii.a2b_base64` loop.  `'='` at quad position
&ge; 2 that completes the quantum returns the bytes decoded so far
(the rest of the input is ignored); other `'='` occurrences are recorded or
skipped; non-alphabet characters are skipped; at end of input an open
quantum is a `binascii.Error` (`none`). -/
def b64Run : List Char → B64State → Option (List Nat)
  | [], st => if st.qpos = 0 then some st.out else none
  | c :: cs, st =>
      if c = '=' then
        if 2 ≤ st.qpos then
          if 4 ≤ st.qpos + (st.pads + 1) then some st.out
          else b64Run cs { st with pads := st.pads + 1 }
        else b64Run cs st
      else
        match stdVal c with
        | some v =>
            match st.qpos with
            | 0 => b64Run cs { out := st.out, left := v, qpos := 1, pads := 0 }
            | 1 => b64Run cs { out := st.out ++ [st.left * 4 + v / 16], left := v % 16, qpos := 2, pads := 0 }
            | 2 => b64Run cs { out := st.out ++ [st.left * 16 + v / 4], left := v % 4, qpos := 3, pads := 0 }
            | _ => b64Run cs { out := st.out ++ [st.left * 64 + v], left := 0, qpos := 0, pads := 0 }
        | none => b64Run cs st

/-- `base64.b64decode` on a character list: run the automaton from the
initial state. -/
def pyB64Decode (s : List Char) : Option (List Nat) :=
  b64Run s { out := [], left := 0, qpos := 0, pads := 0 }

/-- The 6-bit values of a base64url string; `none` if any character is
outside the base64url alphabet. -/
def urlSextets : List Char → Option (List Nat)
  | [] => some []
  | c :: cs =>
      match urlVal c, urlSextets cs with
      | some v, some vs => some (v :: vs)
      | _, _ => none

/-- Reassemble 6-bit values into bytes, RFC 4648 style: full quanta of
four values give three bytes; a final pair gives one byte, a final triple
two; a single leftover value is invalid. -/
def sexToBytes : List Nat → Option (List Nat)
  | [] => some []
  | [_] => none
  | [a, b] => some [a * 4 + b / 16]
  | [a, b, c] => some [a * 4 + b / 16, b % 16 * 16 + c / 4]
  | a :: b :: c :: d :: rest =>
      (sexToBytes rest).map
        (fun bs => (a * 4 + b / 16) :: (b % 16 * 16 + c / 4) :: (c % 4 * 64 + d) :: bs)

/-- base64url decoding of an unpadded JWT claim segment: what a correct
JWT decoder would compute from the segment. -/
def base64urlDecode (s : List Char) : Option (List Nat) :=
  (urlSextets s).bind sexToBytes

/-- Number of bytes the automaton emits while consuming `t` data
characters starting from quad position `q`: one byte per data character
except at quad position 0. -/
def outLen (q : Nat) : Nat → Nat
  | 0 => 0
  | t + 1 => (if q % 4 = 0 then 0 else 1) + outLen ((q + 1) % 4) t

theorem outLen_eq (t : Nat) : ∀ q, q < 4 → outLen q t = t - ((t + q + 3) / 4 - (q + 3) / 4) := by
  induction t with
  | zero => intro q hq; simp [outLen]
  | succ t ih =>
      intro q hq
      have step : outLen q (t + 1) = (if q % 4 = 0 then 0 else 1) + outLen ((q + 1) % 4) t := rfl
      rw [step, ih ((q + 1) % 4) (Nat.mod_lt _ (by norm_num))]
      interval_cases q <;> simp <;> omega

theorem outLen_mono {a b : Nat} (hab : a < b) (ha : a % 4 ≠ 1) (hb : b % 4 ≠ 1) :
    outLen 0 a < outLen 0 b := by
  rw [outLen_eq a 0 (by norm_num), outLen_eq b 0 (by norm_num)]
  omega

/-- A character of the standard base64 alphabet. -/
def isStd (c : Char) : Bool := (stdVal c).isSome

theorem b64Run_append_url (ds : List Char) :
    ∀ (cs : List Char) (st : B64State),
      (∀ c ∈ cs, (urlVal c).isSome) → st.qpos < 4 → st.pads = 0 →
      ∃ st2 : B64State,
        b64Run (cs ++ ds) st = b64Run ds st2 ∧
        st2.out.length = st.out.length + outLen st.qpos (cs.countP isStd) ∧
        st2.qpos = (st.qpos + cs.countP isStd) % 4 ∧
        st2.pads = 0 := by
  intro cs
  induction cs with
  | nil =>
      intro st hwf hq hp
      refine ⟨st, by simp, by simp [outLen], by simp; omega, hp⟩
  | cons c cs ih =>
      intro st hwf hq hp
      have hc : (urlVal c).isSome := hwf c (List.mem_cons_self c cs)
      have hwf' : ∀ x ∈ cs, (urlVal x).isSome := fun x hx => hwf x (List.mem_cons_of_mem c hx)
      have hne : ¬ (c = '=') := by
        intro h; rw [h] at hc; simp [urlVal] at hc
      cases hv : stdVal c with
      | none =>
          have hstep : b64Run ((c :: cs) ++ ds) st = b64Run (cs ++ ds) st := by
            simp [b64Run, hne, hv]
          obtain ⟨st2, h1, h2, h3, h4⟩ := ih st hwf' hq hp
          refine ⟨st2, hstep.trans h1, ?_, ?_, h4⟩
          · rw [h2]; simp [List.countP_cons, isStd, hv]
          · rw [h3]; simp [List.countP_cons, isStd, hv]
      | some v =>
          obtain ⟨out, left, qpos, pads⟩ := st
          simp only at hq hp ⊢
          subst hp
          interval_cases qpos
          · have hstep : b64Run ((c :: cs) ++ ds) ⟨out, left, 0, 0⟩ =
                b64Run (cs ++ ds) ⟨out, v, 1, 0⟩ := by
              simp [b64Run, hne, hv]
            obtain ⟨st2, h1, h2, h3, h4⟩ := ih ⟨out, v, 1, 0⟩ hwf' (by norm_num) rfl
            refine ⟨st2, hstep.trans h1, ?_, ?_, h4⟩
            · rw [h2]; simp [List.countP_cons, isStd, hv, outLen]
            · rw [h3]; simp [List.countP_cons, isStd, hv]; omega
          · have hstep : b64Run ((c :: cs) ++ ds) ⟨out, left, 1, 0⟩ =
                b64Run (cs ++ ds) ⟨out ++ [left * 4 + v / 16], v % 16, 2, 0⟩ := by
              simp [b64Run, hne, hv]
            obtain ⟨st2, h1, h2, h3, h4⟩ :=
              ih ⟨out ++ [left * 4 + v / 16], v % 16, 2, 0⟩ hwf' (by norm_num) rfl
            refine ⟨st2, hstep.trans h1, ?_, ?_, h4⟩
            · rw [h2]; simp [List.countP_cons, isStd, hv, outLen]; omega
            · rw [h3]; simp [List.countP_cons, isStd, hv]; omega
          · have hstep : b64Run ((c :: cs) ++ ds) ⟨out, left, 2, 0⟩ =
                b64Run (cs ++ ds) ⟨out ++ [left * 16 + v / 4], v % 4, 3, 0⟩ := by
              simp [b64Run, hne, hv]
            obtain ⟨st2, h1, h2, h3, h4⟩ :=
              ih ⟨out ++ [left * 16 + v / 4], v % 4, 3, 0⟩ hwf' (by norm_num) rfl
            refine ⟨st2, hstep.trans h1, ?_, ?_, h4⟩
            · rw [h2]; simp [List.countP_cons, isStd, hv, outLen]; omega
            · rw [h3]; simp [List.countP_cons, isStd, hv]; omega
          · have hstep : b64Run ((c :: cs) ++ ds) ⟨out, left, 3, 0⟩ =
                b64Run (cs ++ ds) ⟨out ++ [left * 64 + v], 0, 0, 0⟩ := by
              simp [b64Run, hne, hv]
            obtain ⟨st2, h1, h2, h3, h4⟩ :=
              ih ⟨out ++ [left * 64 + v], 0, 0, 0⟩ hwf' (by norm_num) rfl
            refine ⟨st2, hstep.trans h1, ?_, ?_, h4⟩
            · rw [h2]; simp [List.countP_cons, isStd, hv, outLen]; omega
            · rw [h3]; simp [List.countP_cons, isStd, hv]; omega

theorem b64Run_pads_q0 : ∀ (p : Nat) (st : B64State), st.qpos = 0 →
    b64Run (List.replicate p '=') st = some st.out := by
  intro p
  induction p with
  | zero => intro st h0; simp [b64Run, h0]
  | succ p ih =>
      intro st h0
      rw [List.replicate_succ]
      have hstep : b64Run ('=' :: List.replicate p '=') st = b64Run (List.replicate p '=') st := by
        simp [b64Run, h0]
      rw [hstep]; exact ih st h0

theorem b64Run_pads_q1 : ∀ (p : Nat) (st : B64State), st.qpos = 1 →
    b64Run (List.replicate p '=') st = none := by
  intro p
  induction p with
  | zero => intro st h1; simp [b64Run, h1]
  | succ p ih =>
      intro st h1
      rw [List.replicate_succ]
      have hstep : b64Run ('=' :: List.replicate p '=') st = b64Run (List.replicate p '=') st := by
        simp [b64Run, h1]
      rw [hstep]; exact ih st h1

theorem b64Run_pads_q2_one (st : B64State) (h2 : st.qpos = 2) (hp : st.pads = 0) :
    b64Run (List.replicate 1 '=') st = none := by
  simp [List.replicate_succ, b64Run, h2, hp]

theorem b64Run_pads_q2_ge2 (p : Nat) (st : B64State) (h2 : st.qpos = 2) (hp : st.pads = 0)
    (hge : 2 ≤ p) : b64Run (List.replicate p '=') st = some st.out := by
  obtain ⟨q, rfl⟩ : ∃ q, p = q + 2 := ⟨p - 2, by omega⟩
  rw [show q + 2 = (q + 1) + 1 by omega, List.replicate_succ, List.replicate_succ]
  simp [b64Run, h2, hp]

theorem b64Run_pads_q3 (p : Nat) (st : B64State) (h3 : st.qpos = 3) (hp : st.pads = 0)
    (hge : 1 ≤ p) : b64Run (List.replicate p '=') st = some st.out := by
  obtain ⟨q, rfl⟩ : ∃ q, p = q + 1 := ⟨p - 1, by omega⟩
  rw [List.replicate_succ]
  simp [b64Run, h3, hp]

/-- If the scripts' decode of the padded segment succeeds on a segment made
of base64url-alphabet characters, the number of decoded bytes is determined
by the number of characters that are in the *standard* alphabet (the `-`
and `_` characters having been discarded). -/
theorem pyB64Decode_padded_length (s : List Char) (hwf : ∀ c ∈ s, (urlVal c).isSome)
    (bs : List Nat) (hdec : pyB64Decode (paddedSegment s) = some bs) :
    bs.length = outLen 0 (s.countP isStd) ∧ s.countP isStd % 4 ≠ 1 := by
  unfold pyB64Decode paddedSegment at hdec
  obtain ⟨st2, h1, h2, h3, h4⟩ :=
    b64Run_append_url (List.replicate (padCount s.length) '=') s
      ⟨[], 0, 0, 0⟩ hwf (by norm_num) rfl
  rw [h1] at hdec
  have hq4 : st2.qpos = s.countP isStd % 4 := by simpa using h3
  have hlen2 : st2.out.length = outLen 0 (s.countP isStd) := by simpa using h2
  have hpc : 1 ≤ padCount s.length ∧ padCount s.length ≤ 4 := by
    unfold padCount; omega
  have hcases : s.countP isStd % 4 = 0 ∨ s.countP isStd % 4 = 1 ∨
      s.countP isStd % 4 = 2 ∨ s.countP isStd % 4 = 3 := by omega
  rcases hcases with h | h | h | h
  · rw [b64Run_pads_q0 _ st2 (by omega)] at hdec
    exact ⟨by rw [← Option.some_inj.mp hdec, hlen2], by omega⟩
  · rw [b64Run_pads_q1 _ st2 (by omega)] at hdec
    exact absurd hdec (by simp)
  · by_cases hp2 : 2 ≤ padCount s.length
    · rw [b64Run_pads_q2_ge2 _ st2 (by omega) h4 hp2] at hdec
      exact ⟨by rw [← Option.some_inj.mp hdec, hlen2], by omega⟩
    · have hp1 : padCount s.length = 1 := by omega
      rw [hp1, b64Run_pads_q2_one st2 (by omega) h4] at hdec
      exact absurd hdec (by simp)
  · rw [b64Run_pads_q3 _ st2 (by omega) h4 (by omega)] at hdec
    exact ⟨by rw [← Option.some_inj.mp hdec, hlen2], by omega⟩

theorem urlSextets_length : ∀ (s : List Char) (vs : List Nat),
    urlSextets s = some vs → vs.length = s.length := by
  intro s
  induction s with
  | nil => intro vs h; simp [urlSextets] at h; simp [← h]
  | cons c cs ih =>
      intro vs h
      simp only [urlSextets] at h
      cases hv : urlVal c with
      | none => rw [hv] at h; simp at h
      | some v =>
          rw [hv] at h
          cases hs : urlSextets cs with
          | none => rw [hs] at h; simp at h
          | some vs2 =>
              rw [hs] at h
              simp only [Option.some_inj] at h
              rw [← h]
              simp [ih vs2 hs]

theorem outLen_zero_add_four (t : Nat) : outLen 0 (t + 4) = 3 + outLen 0 t := by
  rw [outLen_eq (t + 4) 0 (by norm_num), outLen_eq t 0 (by norm_num)]
  omega

theorem sexToBytes_length : ∀ (vs u : List Nat),
    sexToBytes vs = some u → u.length = outLen 0 vs.length
  | [], u, h => by
      simp [sexToBytes] at h; simp [← h, outLen]
  | [_], u, h => by
      simp [sexToBytes] at h
  | [a, b], u, h => by
      simp [sexToBytes] at h
      rw [← h]
      simp [outLen]
  | [a, b, c], u, h => by
      simp [sexToBytes] at h
      rw [← h]
      simp [outLen]
  | a :: b :: c :: d :: rest, u, h => by
      simp only [sexToBytes, Option.map_eq_some'] at h
      obtain ⟨bs, hbs, hu⟩ := h
      have hrec := sexToBytes_length rest bs hbs
      rw [← hu]
      simp only [List.length_cons, List.length]
      rw [hrec]
      have : rest.length + 1 + 1 + 1 + 1 = rest.length + 4 := by omega
      rw [this, outLen_zero_add_four]
      omega

/-! ## Association-list lemmas for the attribute merge -/

theorem lookupKV_setKV_self {α : Type} :
    ∀ (l : List (String × α)) (key : String) (v : α),
      lookupKV (setKV l key v) key = some v := by
  intro l key v
  induction l with
  | nil => simp [setKV, lookupKV]
  | cons p rest ih =>
      obtain ⟨k, w⟩ := p
      by_cases hk : k = key
      · simp [setKV, hk, lookupKV]
      · simp [setKV, hk, lookupKV, ih]

theorem lookupKV_setKV_other {α : Type} :
    ∀ (l : List (String × α)) (key k : String) (v : α), k ≠ key →
      lookupKV (setKV l key v) k = lookupKV l k := by
  intro l key k v hne
  have hne' : ¬(key = k) := fun h => hne h.symm
  induction l with
  | nil => simp [setKV, lookupKV, hne']
  | cons p rest ih =>
      obtain ⟨k1, w⟩ := p
      by_cases hk : k1 = key
      · subst hk
        simp [setKV, lookupKV, hne']
      · simp [setKV, hk, lookupKV, ih]

/-! ## Claim theorems -/

/-- C1 counterexample: the claim says a segment whose length is already a
multiple of 4 receives zero padding characters, but the code appends
`'=' * (4 - len % 4)`, which is four characters for a segment of length 4. -/
theorem C1_counterexample :
    padCount 4 = 4 ∧ ¬ padCount 4 = 0 ∧
    (paddedSegment ['e', 'y', 'J', '9']).length = 8 := by
  refine ⟨rfl, by decide, by decide⟩

/-- C1 (amended): the decode pads the claim segment with exactly
`4 - (len mod 4)` `'='` characters — 3 characters for a segment of
length 21, but 4 (not 0) when the length is already a multiple of 4 —
and the padded segment's length is always a multiple of 4. -/
theorem C1_padding (n : Nat) (s : List Char) :
    padCount n = 4 - n % 4 ∧
    (n + padCount n) % 4 = 0 ∧
    padCount 21 = 3 ∧
    padCount (4 * (n + 1)) = 4 ∧
    (paddedSegment s).length % 4 = 0 := by
  refine ⟨rfl, ?_, rfl, ?_, ?_⟩
  · unfold padCount; omega
  · unfold padCount; omega
  · simp [paddedSegment, padCount]; omega

/-- C3: in both scripts, a client lookup yielding an empty list terminates
the run with a non-zero exit status (an explicit diagnostic plus
`sys.exit(1)` in the fix script; an uncaught `IndexError`, which CPython
turns into a traceback and exit status 1, in the setup script), and no
subsequent step runs: every continuation is skipped. -/
theorem C3_empty_client_list_fatal :
    (∀ (β : Type) (rest : JVal → β),
        Except.map rest (fixClientLookup []) = .error (.exited 1 "Client not found")) ∧
    abortExitStatus (.exited 1 "Client not found") ≠ 0 ∧
    (∀ (β : Type) (rest : JVal → β),
        Except.map rest (setupClientLookup []) =
          .error (.uncaught "IndexError: list index out of range")) ∧
    abortExitStatus (.uncaught "IndexError: list index out of range") ≠ 0 := by
  refine ⟨fun β rest => rfl, by decide, fun β rest => rfl, by decide⟩

/-- C4: the attribute update writes back a representation in which
`company_id` maps to `['1']`, every other attribute key keeps the value it
had in the fetched representation, and every non-attribute field is
untouched (the desired attributes are merged, not substituted). -/
theorem C4_attribute_merge (u : UserRep) (k : String) (hk : k ≠ "company_id") :
    lookupKV ((setCompanyId u).attributes.getD []) "company_id" = some ["1"] ∧
    lookupKV ((setCompanyId u).attributes.getD []) k = lookupKV (u.attributes.getD []) k ∧
    (setCompanyId u).rest = u.rest := by
  refine ⟨?_, ?_, rfl⟩
  · simp [setCompanyId, lookupKV_setKV_self]
  · simp [setCompanyId, lookupKV_setKV_other _ _ _ _ hk]

/-- C4 witness: the merge evaluated on a concrete fetched representation
with a pre-existing unrelated attribute and a non-attribute field. -/
theorem C4_attribute_merge_witness :
    lookupKV ((setCompanyId ⟨some [("locale", ["en"])], [("username", JVal.str "admin")]⟩).attributes.getD [])
        "company_id" = some ["1"] ∧
    lookupKV ((setCompanyId ⟨some [("locale", ["en"])], [("username", JVal.str "admin")]⟩).attributes.getD [])
        "locale" =
      lookupKV ((⟨some [("locale", ["en"])], [("username", JVal.str "admin")]⟩ : UserRep).attributes.getD [])
        "locale" ∧
    (setCompanyId ⟨some [("locale", ["en"])], [("username", JVal.str "admin")]⟩).rest =
      (⟨some [("locale", ["en"])], [("username", JVal.str "admin")]⟩ : UserRep).rest :=
  C4_attribute_merge ⟨some [("locale", ["en"])], [("username", JVal.str "admin")]⟩ "locale" (by decide)

/-- C5: the `api` helper returns `(code, raw body text)` and raises nothing
on an HTTP error status; on success it returns the status code with the
JSON-decoded body when the body is non-empty and with no value when the
body is empty. -/
theorem C5_api_response (parse : String → Option JVal) (code status : Nat) (body : String)
    (j : JVal) (hbody : body ≠ "") (hparse : parse body = some j) :
    apiResp parse (.httpError code body) = .ok (code, .raw body) ∧
    apiResp parse (.success status "") = .ok (status, .none) ∧
    apiResp parse (.success status body) = .ok (status, .json j) := by
  refine ⟨rfl, by simp [apiResp], ?_⟩
  simp [apiResp, hbody, hparse]

/-- C5 witness: the helper evaluated on a concrete error response, an
empty-body success and a parseable success body. -/
theorem C5_api_response_witness :
    apiResp (fun s => if s = "[]" then some (JVal.arr []) else none) (.httpError 401 "[]") =
      .ok (401, .raw "[]") ∧
    apiResp (fun s => if s = "[]" then some (JVal.arr []) else none) (.success 200 "") =
      .ok (200, .none) ∧
    apiResp (fun s => if s = "[]" then some (JVal.arr []) else none) (.success 200 "[]") =
      .ok (200, .json (JVal.arr [])) :=
  C5_api_response (fun s => if s = "[]" then some (JVal.arr []) else none) 401 200 "[]"
    (JVal.arr []) (by decide) (by simp)

/-- C2: a role or user creation call answered with HTTP 409, and a role
deletion call answered with HTTP 404, neither raises nor aborts: the
helper catches the `HTTPError`, the branch classifies the condition as an
idempotent no-op, and the loops continue through every remaining name. -/
theorem C2_conflict_tolerance (parse : String → Option JVal) (b b2 b3 : String)
    (createResp deleteResp : String → HttpResult)
    (hc : ∀ r ∈ NEW_ROLES, ∃ body, createResp r = .httpError 409 body)
    (hd : ∀ r ∈ OLD_ROLES, ∃ body, deleteResp r = .httpError 404 body) :
    roleCreateStep parse (.httpError 409 b) = .ok .alreadyExists ∧
    roleDeleteStep parse (.httpError 404 b2) = .ok .notFoundSkip ∧
    userCreateStep parse (.httpError 409 b3) = .ok .alreadyExists ∧
    runSteps (fun r => roleCreateStep parse (createResp r)) NEW_ROLES =
      .ok [.alreadyExists, .alreadyExists, .alreadyExists] ∧
    runSteps (fun r => roleDeleteStep parse (deleteResp r)) OLD_ROLES =
      .ok [.notFoundSkip, .notFoundSkip, .notFoundSkip, .notFoundSkip, .notFoundSkip] := by
  refine ⟨rfl, rfl, rfl, ?_, ?_⟩
  · obtain ⟨c1, h1⟩ := hc "super_admin" (by simp [NEW_ROLES])
    obtain ⟨c2, h2⟩ := hc "company_admin" (by simp [NEW_ROLES])
    obtain ⟨c3, h3⟩ := hc "company_member" (by simp [NEW_ROLES])
    simp [NEW_ROLES, runSteps, h1, h2, h3, roleCreateStep, apiResp, Except.map]
  · obtain ⟨c1, h1⟩ := hd "owner_admin" (by simp [OLD_ROLES])
    obtain ⟨c2, h2⟩ := hd "dispatcher" (by simp [OLD_ROLES])
    obtain ⟨c3, h3⟩ := hd "technician" (by simp [OLD_ROLES])
    obtain ⟨c4, h4⟩ := hd "accountant" (by simp [OLD_ROLES])
    obtain ⟨c5, h5⟩ := hd "viewer" (by simp [OLD_ROLES])
    simp [OLD_ROLES, runSteps, h1, h2, h3, h4, h5, roleDeleteStep, apiResp, Except.map]

/-- C2 witness: all three creations answered 409 and all five deletions
answered 404, evaluated concretely — the run reaches every name. -/
theorem C2_conflict_tolerance_witness :
    roleCreateStep (fun _ => none) (.httpError 409 "conflict") = .ok .alreadyExists ∧
    roleDeleteStep (fun _ => none) (.httpError 404 "missing") = .ok .notFoundSkip ∧
    userCreateStep (fun _ => none) (.httpError 409 "conflict") = .ok .alreadyExists ∧
    runSteps (fun r => roleCreateStep (fun _ => none) ((fun _ => HttpResult.httpError 409 "conflict") r)) NEW_ROLES =
      .ok [.alreadyExists, .alreadyExists, .alreadyExists] ∧
    runSteps (fun r => roleDeleteStep (fun _ => none) ((fun _ => HttpResult.httpError 404 "missing") r)) OLD_ROLES =
      .ok [.notFoundSkip, .notFoundSkip, .notFoundSkip, .notFoundSkip, .notFoundSkip] :=
  C2_conflict_tolerance (fun _ => none) "conflict" "missing" "conflict"
    (fun _ => .httpError 409 "conflict") (fun _ => .httpError 404 "missing")
    (fun r _ => ⟨"conflict", rfl⟩) (fun r _ => ⟨"missing", rfl⟩)

/-- C6 counterexample: in the fix script an exception during the
verification step (here: the password-grant request failing) is not caught
and not reported as a verification failure — it propagates as an uncaught
exception and aborts the run. -/
theorem C6_counterexample :
    fixVerify (.error "HTTPError 401") "owner_admin" = .error (.uncaught "HTTPError 401") ∧
    (∀ msg : String, fixVerify (.error "HTTPError 401") "owner_admin" ≠
      .ok (.reportedFailure msg)) := by
  exact ⟨rfl, fun msg h => by simp [fixVerify] at h⟩

/-- C6 (amended): in the setup script every exception during a principal's
verification is caught and reported with the underlying message and the
remaining verification check still runs; in the fix script the
verification has no exception handler, so the exception propagates and
aborts the run. -/
theorem C6_verification_exceptions (e1 e2 : String) (d : DecodedToken) :
    setupVerify (.error e1) "company_admin" =
      .ok (.reportedFailure ("Token test failed: " ++ e1)) ∧
    setupVerifyPhase (.error e1) (.ok d) =
      .ok (.reportedFailure ("Token test failed: " ++ e1),
           .checked (setupRoleCheck d "super_admin")) ∧
    setupVerifyPhase (.error e1) (.error e2) =
      .ok (.reportedFailure ("Token test failed: " ++ e1),
           .reportedFailure ("Token test failed: " ++ e2)) ∧
    fixVerify (.error e1) "owner_admin" = .error (.uncaught e1) := by
  exact ⟨rfl, rfl, rfl, rfl⟩

/-- C7 counterexample: a decoded token whose only occurrence of the
expected role is in the legacy top-level `realm_roles` claim is in the
union the claim describes, yet the setup script's role check fails on it
(the setup script reads only `realm_access.roles`). -/
theorem C7_counterexample :
    unionRoleCheck ⟨none, some ["company_admin"], none⟩ "company_admin" = true ∧
    setupRoleCheck ⟨none, some ["company_admin"], none⟩ "company_admin" = false := by
  decide

/-- C7 (amended): the fix script's role check succeeds exactly on
membership in the union of `realm_access.roles` and the legacy
`realm_roles` claim; the setup script's role check succeeds exactly on
membership in `realm_access.roles` alone and is insensitive to the legacy
claim. -/
theorem C7_role_checks (d : DecodedToken) (role : String) (rr : Option (List String)) :
    (fixRoleCheck d role = true ↔ unionRoleCheck d role = true) ∧
    (setupRoleCheck d role = true ↔ role ∈ d.realmAccessRoles.getD []) ∧
    setupRoleCheck { d with realmRoles := rr } role = setupRoleCheck d role := by
  refine ⟨?_, ?_, rfl⟩
  · simp [fixRoleCheck, unionRoleCheck, fixAllRoles]
  · simp [setupRoleCheck]

/-- C8 counterexample: a provided payload that is an empty list or empty
mapping is falsy in Python, so `json.dumps(data).encode() if data else
None` sends no request body at all instead of the JSON serialization
`[]` / `{}`. -/
theorem C8_counterexample :
    (apiRequest (some (JVal.arr [])) (some "tok")).body = none ∧
    dumps (JVal.arr []) = "[]" ∧
    (apiRequest (some (JVal.obj [])) (some "tok")).body = none ∧
    dumps (JVal.obj []) = "\x7b\x7d" := by
  refine ⟨rfl, by decide, rfl, by decide⟩

/-- C8 (amended): for every call with a truthy (non-empty) payload and a
token, the request body is the JSON serialization of the payload and both
the JSON content-type header and the Authorization bearer header are
attached; an empty-list or empty-mapping payload sends no body, though the
headers are still attached. -/
theorem C8_request_build (d : JVal) (t : String) (ht : t ≠ "") (htr : pyTruthy d = true) :
    apiRequest (some d) (some t) =
      { body := some (dumps d)
        headers := [("Content-Type", "application/json"), ("Authorization", "Bearer " ++ t)] } ∧
    pyTruthy (JVal.arr []) = false ∧
    pyTruthy (JVal.obj []) = false ∧
    (apiRequest (some (JVal.arr [])) (some t)).headers =
      [("Content-Type", "application/json"), ("Authorization", "Bearer " ++ t)] := by
  refine ⟨?_, rfl, rfl, ?_⟩
  · simp [apiRequest, htr, ht]
  · simp [apiRequest, ht]

/-- C8 witness: the request built for a concrete non-empty JSON object
payload and bearer token. -/
theorem C8_request_build_witness :
    apiRequest (some (JVal.obj [("name", JVal.str "super_admin")])) (some "tok") =
      { body := some (dumps (JVal.obj [("name", JVal.str "super_admin")]))
        headers := [("Content-Type", "application/json"), ("Authorization", "Bearer " ++ "tok")] } ∧
    pyTruthy (JVal.arr []) = false ∧
    pyTruthy (JVal.obj []) = false ∧
    (apiRequest (some (JVal.arr [])) (some "tok")).headers =
      [("Content-Type", "application/json"), ("Authorization", "Bearer " ++ "tok")] :=
  C8_request_build (JVal.obj [("name", JVal.str "super_admin")]) "tok" (by decide) rfl

theorem isStd_dash : isStd '-' = false := by decide

theorem isStd_underscore : isStd '_' = false := by decide

/-- C9: the scripts decode the claim segment with the standard base64
alphabet, not base64url: on any segment of base64url-alphabet characters
that contains `-` or `_` (and has a decodable length, i.e. not 1 mod 4),
`base64.b64decode` of the padded segment never yields the bytes base64url
decoding of the segment yields — the non-alphabet characters are discarded
before decoding, so the decode either fails or produces strictly fewer
bytes. -/
theorem C9_not_base64url (s : List Char)
    (hwf : ∀ c ∈ s, (urlVal c).isSome = true)
    (hdash : '-' ∈ s ∨ '_' ∈ s)
    (hlen : s.length % 4 ≠ 1)
    (u : List Nat) (hurl : base64urlDecode s = some u) :
    pyB64Decode (paddedSegment s) ≠ some u := by
  intro hdec
  obtain ⟨hblen, hm1⟩ := pyB64Decode_padded_length s hwf u hdec
  unfold base64urlDecode at hurl
  cases hvs : urlSextets s with
  | none => rw [hvs] at hurl; simp at hurl
  | some vs =>
      rw [hvs] at hurl
      have hsb : sexToBytes vs = some u := hurl
      have hulen : u.length = outLen 0 s.length := by
        rw [sexToBytes_length vs u hsb, urlSextets_length s vs hvs]
      have hle : s.countP isStd ≤ s.length := List.countP_le_length isStd
      have hmn : s.countP isStd < s.length := by
        rcases Nat.lt_or_ge (s.countP isStd) s.length with hlt | hge
        · exact hlt
        · exfalso
          have heq : s.countP isStd = s.length := le_antisymm hle hge
          have hall := List.countP_eq_length.mp heq
          rcases hdash with hdm | hdm
          · have := hall '-' hdm
            rw [isStd_dash] at this
            exact Bool.false_ne_true this
          · have := hall '_' hdm
            rw [isStd_underscore] at this
            exact Bool.false_ne_true this
      have hlt2 := outLen_mono hmn hm1 hlen
      omega

/-- C9 witness: the segment `ab-d` (containing `-`, length a multiple
of 4) base64url-decodes to three bytes that the scripts' standard-alphabet
decode never produces. -/
theorem C9_not_base64url_witness :
    pyB64Decode (paddedSegment ['a', 'b', '-', 'd']) ≠ some [105, 191, 157] :=
  C9_not_base64url ['a', 'b', '-', 'd'] (by decide) (by decide) (by decide)
    [105, 191, 157] (by decide)

/-- C10: in the fix script, the not-found exit path of the client and user
lookups is taken exactly when the guarded value is falsy (absent body,
empty list or empty string); an HTTP error status delivers the error body
as a string, and whenever that string is non-empty it passes the
emptiness guard and the unguarded `clients[0]['id']` indexing reaches its
`TypeError` branch. -/
theorem C10_guard_exactness (v : LookupValue) (s : String) (hs : s ≠ "") :
    (fixLookupGuard v = .exitPath ↔ lookupFalsy v = true) ∧
    fixLookupGuard (.pyStr s) = .typeError := by
  constructor
  · cases v with
    | pyNone => simp [fixLookupGuard, lookupFalsy]
    | pyList xs => cases xs <;> simp [fixLookupGuard, lookupFalsy]
    | pyStr s2 =>
        by_cases h2 : s2 = ""
        · simp [fixLookupGuard, lookupFalsy, h2]
        · simp [fixLookupGuard, lookupFalsy, h2]
  · simp [fixLookupGuard, hs]

/-- C10 witness: a non-empty error body (a provider error message) passes
the guard and the string indexing raises `TypeError`; the guard itself
agrees with falsiness on that value. -/
theorem C10_guard_exactness_witness :
    (fixLookupGuard (.pyStr "401 unauthorized") = .exitPath ↔
      lookupFalsy (.pyStr "401 unauthorized") = true) ∧
    fixLookupGuard (.pyStr "401 unauthorized") = .typeError :=
  C10_guard_exactness (.pyStr "401 unauthorized") "401 unauthorized" (by decide)
